import Mathlib

/-!
Shallow embedding of the Central-SSO-JWT identity broker.

The embedding follows the TypeScript sources:
  * `src/auth/token.store.ts`   — exchange-code / refresh-token / signup-token stores
  * `src/auth/session.store.ts` — authorization-session store
  * `src/auth/callback.controller.ts`, `src/auth/login.controller.ts`
  * `src/auth/token.controller.ts` — exchange / refresh endpoints
  * `src/auth/claims.helper.ts` — claims assembler
  * `src/jwt/jwt.service.ts`    — signer / verifier
  * signup controller (`signupVerifyOtp`) and password-reset controller
    (`passwordResetSubmitPassword`).

JavaScript `Map<string, V>` objects are modelled as association lists with
`storeGet` / `storeSet` / `storeDelete`; `Date.now()` timestamps are explicit
`Nat` millisecond parameters; cryptographic randomness (opaque token
generation) is passed in as a parameter.
-/

namespace CentralSSO

/-- Lookup in a JS `Map<string, V>`: first binding for the key, if any. -/
def storeGet {α : Type} (s : List (String × α)) (k : String) : Option α :=
  (s.find? (fun p => p.1 = k)).map Prod.snd

/-- `Map.delete`: remove the binding for the key. -/
def storeDelete {α : Type} (s : List (String × α)) (k : String) : List (String × α) :=
  s.filter (fun p => p.1 ≠ k)

/-- `Map.set`: bind the key to the value, replacing any previous binding. -/
def storeSet {α : Type} (s : List (String × α)) (k : String) (v : α) : List (String × α) :=
  (k, v) :: storeDelete s k

/-- Truthiness test for a possibly-absent string request field: JS `!x` is
true when the field is `undefined` or the empty string. -/
def strFalsy : Option String → Bool
  | none => true
  | some s => s = ""

/-- `toLowerCase()`, as a structural map over the characters. -/
def toLowerStr (s : String) : String := ⟨s.data.map Char.toLower⟩

/-- `trim()`: strip leading and trailing whitespace, structurally. -/
def trimStr (s : String) : String :=
  ⟨((s.data.dropWhile Char.isWhitespace).reverse.dropWhile Char.isWhitespace).reverse⟩

/-- Prefix test on character lists. -/
def charsHasPrefix : List Char → List Char → Bool
  | [], _ => true
  | _ :: _, [] => false
  | a :: as, b :: bs => a == b && charsHasPrefix as bs

/-- Contiguous-occurrence test on character lists. -/
def charsContains : List Char → List Char → Bool
  | [], needle => charsHasPrefix needle []
  | hay@(_ :: rest), needle => charsHasPrefix needle hay || charsContains rest needle

/-- JS `String.includes(sub)`. -/
def strContainsSub (s sub : String) : Bool := charsContains s.data sub.data

theorem storeGet_set_self {α : Type} (s : List (String × α)) (k : String) (v : α) :
    storeGet (storeSet s k v) k = some v := by
  simp [storeGet, storeSet, List.find?]

theorem storeGet_delete_self {α : Type} (s : List (String × α)) (k : String) :
    storeGet (storeDelete s k) k = none := by
  have h : List.find? (fun p => decide (p.1 = k)) (storeDelete s k) = none := by
    rw [List.find?_eq_none]
    intro p hp
    have hmem := List.of_mem_filter hp
    simpa using hmem
  simp [storeGet, h]

theorem storeGet_delete_ne {α : Type} (s : List (String × α)) (k k' : String)
    (h : k' ≠ k) : storeGet (storeDelete s k) k' = storeGet s k' := by
  induction s with
  | nil => rfl
  | cons p t ih =>
    show storeGet (List.filter (fun q => q.1 ≠ k) (p :: t)) k' = _
    rw [List.filter_cons]
    by_cases hp : p.1 = k
    · rw [if_neg (by simp [hp])]
      have hpk' : (decide (p.1 = k')) = false := decide_eq_false (fun e => h (e ▸ hp))
      calc storeGet (List.filter (fun q => decide (q.1 ≠ k)) t) k'
          = storeGet t k' := ih
        _ = storeGet (p :: t) k' := by
            simp only [storeGet, List.find?_cons, hpk']
    · rw [if_pos (by simp [hp])]
      by_cases hq : p.1 = k'
      · have hf : (decide (p.1 = k')) = true := by simp [hq]
        simp [storeGet, List.find?_cons, hf]
      · have hf : (decide (p.1 = k')) = false := by simp [hq]
        simp only [storeGet, List.find?_cons, hf]
        simpa [storeGet, storeDelete] using ih

theorem storeGet_set_ne {α : Type} (s : List (String × α)) (k k' : String) (v : α)
    (h : k' ≠ k) : storeGet (storeSet s k v) k' = storeGet s k' := by
  have hk : ¬ (k = k') := fun e => h e.symm
  simp only [storeSet, storeGet, List.find?_cons]
  simp only [show (decide (k = k')) = false by simpa using hk]
  exact storeGet_delete_ne s k k' h

/-! ## JWT payload types (`src/jwt/jwt.service.ts`) -/

/-- Identity block inside the JWT (`JWTIdentity`). -/
structure JWTIdentity where
  email : String
  status : String
  entra_uuid : String
  Person_uuid : String
deriving DecidableEq, Repr

/-- Per-app claims (`JWTAppClaims`). -/
structure JWTAppClaims where
  uid : String
  roles : List String
deriving DecidableEq, Repr

/-- Full JWT payload (`JWTPayload`); optional standard fields are `Option`s,
the `apps` record is an association list keyed by application name. -/
structure JWTPayload where
  iss : Option String
  sub : String
  aud : Option (List String)
  exp : Option Nat
  iat : Option Nat
  identity : JWTIdentity
  apps : List (String × JWTAppClaims)
deriving DecidableEq, Repr

/-- Payload input for `sign()` (`JWTPayloadInput = Omit<JWTPayload, iat exp iss aud>`).
`buildUserClaims` smuggles an optional `aud` into this shape through a TypeScript
cast, so the field is kept here as an `Option`; `sign()` overrides it. -/
structure JWTPayloadInput where
  sub : String
  identity : JWTIdentity
  apps : List (String × JWTAppClaims)
  aud : Option (List String) := none
deriving DecidableEq, Repr

/-! ## Configuration (`src/config`, values read from the environment) -/

/-- The configuration fields the embedded operations read. -/
structure Config where
  jwtPrivateKey : String
  jwtPublicKey : String
  jwtIssuer : String
  jwtAudience : List String
  jwtExpirationMinutes : Nat
  refreshTokenExpirationDays : Nat
deriving DecidableEq, Repr

/-! ## Token store (`src/auth/token.store.ts`) -/

/-- Data stored for a one-time exchange code (`ExchangeCodeData`). -/
structure ExchangeCodeData where
  accessToken : String
  refreshToken : Option String
  expiresIn : Nat
  clientId : String
  createdAt : Nat
deriving DecidableEq, Repr

/-- Stored refresh token entry (`RefreshTokenData`). -/
structure RefreshTokenData where
  payload : JWTPayloadInput
  createdAt : Nat
deriving DecidableEq, Repr

/-- Stored sign-up continuation token entry. -/
structure SignupTokenData where
  continuationToken : String
  createdAt : Nat
deriving DecidableEq, Repr

/-- Exchange code TTL: 5 minutes, in milliseconds. -/
def EXCHANGE_CODE_TTL_MS : Nat := 5 * 60 * 1000

/-- Signup continuation token TTL: 10 minutes, in milliseconds. -/
def SIGNUP_TOKEN_TTL_MS : Nat := 10 * 60 * 1000

/-- `getRefreshTokenTTL()`: configured days, in milliseconds. -/
def getRefreshTokenTTL (cfg : Config) : Nat :=
  cfg.refreshTokenExpirationDays * 24 * 60 * 60 * 1000

/-- Result shape of a successful `consumeExchangeCode`. -/
structure ExchangeConsumeResult where
  accessToken : String
  refreshToken : Option String
  expiresIn : Nat
deriving DecidableEq, Repr

/-- `createExchangeCode`: store access token and friends under a freshly
generated opaque code (the random code is a parameter here) and return it. -/
def createExchangeCode (store : List (String × ExchangeCodeData)) (now : Nat)
    (code accessToken clientId : String) (expiresInSeconds : Nat)
    (refreshToken : Option String) : List (String × ExchangeCodeData) :=
  storeSet store code
    { accessToken := accessToken, refreshToken := refreshToken,
      expiresIn := expiresInSeconds, clientId := clientId, createdAt := now }

/-- `consumeExchangeCode(code, clientId)`: get then delete the entry, then
check TTL and client id; returns the stored tokens on success, `none` otherwise,
together with the updated store. -/
def consumeExchangeCode (store : List (String × ExchangeCodeData)) (now : Nat)
    (code clientId : String) :
    Option ExchangeConsumeResult × List (String × ExchangeCodeData) :=
  let data := storeGet store code
  let store1 := storeDelete store code
  match data with
  | none => (none, store1)
  | some d =>
    if now - d.createdAt > EXCHANGE_CODE_TTL_MS then (none, store1)
    else if d.clientId ≠ clientId then (none, store1)
    else (some ⟨d.accessToken, d.refreshToken, d.expiresIn⟩, store1)

/-- `createRefreshToken(payload)`: store the payload under a freshly generated
opaque token (the random token is a parameter here) and return the store. -/
def createRefreshToken (store : List (String × RefreshTokenData)) (now : Nat)
    (token : String) (payload : JWTPayloadInput) : List (String × RefreshTokenData) :=
  storeSet store token { payload := payload, createdAt := now }

/-- `consumeRefreshToken(token, rotate)`: get the entry, delete it when
rotating, then check the TTL; returns the stored payload on success. -/
def consumeRefreshToken (cfg : Config) (store : List (String × RefreshTokenData))
    (now : Nat) (token : String) (rotate : Bool) :
    Option JWTPayloadInput × List (String × RefreshTokenData) :=
  let data := storeGet store token
  let store1 := if rotate then storeDelete store token else store
  match data with
  | none => (none, store1)
  | some d =>
    if now - d.createdAt > getRefreshTokenTTL cfg then (none, store1)
    else (some d.payload, store1)

/-- Key normalisation used by the signup continuation-token store:
`email.toLowerCase().trim()`. -/
def signupKey (email : String) : String := trimStr (toLowerStr email)

/-- `storeSignupContinuationToken(email, continuationToken)`. -/
def storeSignupContinuationToken (store : List (String × SignupTokenData))
    (now : Nat) (email continuationToken : String) : List (String × SignupTokenData) :=
  storeSet store (signupKey email) { continuationToken := continuationToken, createdAt := now }

/-- `getSignupContinuationToken(email)`: get then delete (consume on read),
then check the 10-minute TTL. -/
def getSignupContinuationToken (store : List (String × SignupTokenData))
    (now : Nat) (email : String) : Option String × List (String × SignupTokenData) :=
  let key := signupKey email
  let data := storeGet store key
  let store1 := storeDelete store key
  match data with
  | none => (none, store1)
  | some d =>
    if now - d.createdAt > SIGNUP_TOKEN_TTL_MS then (none, store1)
    else (some d.continuationToken, store1)

/-! ## Signer (`src/jwt/jwt.service.ts`)

The asymmetric-signature primitive is out of scope (spec §1 treats it as a
black box), so a signed token is modelled as its payload plus the key
material that produced the signature; a signature verifies under a service's
public key exactly when the token was produced with that service's paired
private key. -/

/-- A compact signed token: payload, signing key (black-box signature), and
the key id placed in the header. -/
structure SignedToken where
  payload : JWTPayload
  signedWith : String
  kid : String
deriving DecidableEq, Repr

/-- Verification failure classification of `JWTService.verify`:
`TokenExpiredError` is mapped to the distinguished message
`Token has expired`, every other `JsonWebTokenError` to
`Invalid token: <details>`. -/
inductive VerifyError where
  | expired
  | invalid (msg : String)
deriving DecidableEq, Repr

namespace JWTService

/-- `generateKeyId()`: a key id derived deterministically from the public key
material (a truncated hash in the source; the hash itself is a black box, so
the model keeps the dependency on the public key only). -/
def generateKeyId (cfg : Config) : String := cfg.jwtPublicKey

/-- `JWTService.sign(payload)`: add `iat = now`, `exp = now + minutes*60`,
configured `iss` and `aud`, and sign with the private key. An `aud` carried
by the input payload is overridden. -/
def sign (cfg : Config) (nowSec : Nat) (p : JWTPayloadInput) : SignedToken :=
  let expirationTime := nowSec + cfg.jwtExpirationMinutes * 60
  { payload :=
      { iss := some cfg.jwtIssuer, sub := p.sub, aud := some cfg.jwtAudience,
        exp := some expirationTime, iat := some nowSec,
        identity := p.identity, apps := p.apps },
    signedWith := cfg.jwtPrivateKey,
    kid := generateKeyId cfg }

/-- Post-signature claim checks of `jwt.verify`: audience (only when a
non-empty expected audience is configured, matching the `length > 0` guard in
`JWTService.verify`), then issuer. -/
def verifyClaims (cfg : Config) (t : SignedToken) : Except VerifyError JWTPayload :=
  if cfg.jwtAudience ≠ [] then
    match t.payload.aud with
    | some auds =>
      if auds.any (fun a => cfg.jwtAudience.contains a) then
        if t.payload.iss = some cfg.jwtIssuer then .ok t.payload
        else .error (.invalid "jwt issuer invalid")
      else .error (.invalid "jwt audience invalid")
    | none => .error (.invalid "jwt audience invalid")
  else
    if t.payload.iss = some cfg.jwtIssuer then .ok t.payload
    else .error (.invalid "jwt issuer invalid")

/-- `JWTService.verify(token)`: signature, then expiry
(`TokenExpiredError` when the clock has reached `exp`), then audience and
issuer; expiry maps to `VerifyError.expired` (`Token has expired`), every
other failure to `VerifyError.invalid`. -/
def verify (cfg : Config) (nowSec : Nat) (t : SignedToken) : Except VerifyError JWTPayload :=
  if t.signedWith ≠ cfg.jwtPrivateKey then .error (.invalid "invalid signature")
  else
    match t.payload.exp with
    | some e => if e ≤ nowSec then .error .expired else verifyClaims cfg t
    | none => verifyClaims cfg t

end JWTService

/-! ## Token exchange / refresh endpoints (`token.controller.ts`) -/

/-- JSON response of `POST /auth/token/exchange`. -/
structure TokenEndpointResponse where
  status : Nat
  error : Option String := none
  error_description : Option String := none
  access_token : Option String := none
  token_type : Option String := none
  expires_in : Option Nat := none
  refresh_token : Option String := none
deriving DecidableEq, Repr

/-- `exchangeToken(req)`: validate body fields, consume the exchange code,
and answer 200 with stored tokens or 400 `invalid_grant`. The
`refresh_token` field is included only when the stored value is truthy
(present and non-empty). -/
def exchangeToken (store : List (String × ExchangeCodeData)) (now : Nat)
    (exchange_code client_id : Option String) :
    TokenEndpointResponse × List (String × ExchangeCodeData) :=
  if strFalsy exchange_code then
    ({ status := 400, error := some "exchange_code is required" }, store)
  else if strFalsy client_id then
    ({ status := 400, error := some "client_id is required" }, store)
  else
    match consumeExchangeCode store now (exchange_code.getD "") (client_id.getD "") with
    | (none, store1) =>
      ({ status := 400, error := some "invalid_grant",
         error_description := some "Exchange code invalid, expired, or already used" },
       store1)
    | (some r, store1) =>
      ({ status := 200, access_token := some r.accessToken,
         token_type := some "Bearer", expires_in := some r.expiresIn,
         refresh_token :=
           match r.refreshToken with
           | some rt => if rt = "" then none else some rt
           | none => none },
       store1)

/-- JSON response of `POST /auth/token/refresh`; the freshly signed access
token is carried as a `SignedToken`. -/
structure RefreshEndpointResponse where
  status : Nat
  error : Option String := none
  error_description : Option String := none
  access_token : Option SignedToken := none
  token_type : Option String := none
  expires_in : Option Nat := none
  refresh_token : Option String := none
deriving DecidableEq, Repr

/-- `refreshToken(req)`: validate the body, consume the refresh token with
rotation, then sign a fresh JWT from the stored payload and issue a new
refresh token (`newToken` stands for the randomly generated opaque value). -/
def refreshTokenEndpoint (cfg : Config) (store : List (String × RefreshTokenData))
    (nowMs nowSec : Nat) (newToken : String) (refresh_token : Option String) :
    RefreshEndpointResponse × List (String × RefreshTokenData) :=
  if strFalsy refresh_token then
    ({ status := 400, error := some "refresh_token is required" }, store)
  else
    match consumeRefreshToken cfg store nowMs (refresh_token.getD "") true with
    | (none, store1) =>
      ({ status := 400, error := some "invalid_grant",
         error_description := some "Refresh token invalid or expired" }, store1)
    | (some payload, store1) =>
      let accessToken := JWTService.sign cfg nowSec payload
      let store2 := createRefreshToken store1 nowMs newToken payload
      ({ status := 200, access_token := some accessToken,
         token_type := some "Bearer",
         expires_in := some (cfg.jwtExpirationMinutes * 60),
         refresh_token := some newToken }, store2)

/-! ## Session store (`src/auth/session.store.ts`) -/

/-- Session data stored per in-flight browser login (`SessionData`); the
provider is recorded at login time, `clientId` is the requesting spoke app.
`provider` is an `Option` so the callback's `|| 'microsoft'` default is
observable. -/
structure SessionData where
  codeVerifier : String
  nonce : String
  redirectUri : String
  provider : Option String
  clientId : String
  createdAt : Nat
deriving DecidableEq, Repr

/-- Session expiration time: 10 minutes, in milliseconds. -/
def SESSION_EXPIRATION_MS : Nat := 10 * 60 * 1000

/-- `setSession(state, data)`. -/
def setSession (sessions : List (String × SessionData)) (now : Nat) (state : String)
    (codeVerifier nonce redirectUri : String) (provider : Option String)
    (clientId : String) : List (String × SessionData) :=
  storeSet sessions state
    { codeVerifier := codeVerifier, nonce := nonce, redirectUri := redirectUri,
      provider := provider, clientId := clientId, createdAt := now }

/-- `getSession(state)`: read without consuming, but delete and report absent
when the entry is older than the 10-minute TTL. -/
def getSession (sessions : List (String × SessionData)) (now : Nat) (state : String) :
    Option SessionData × List (String × SessionData) :=
  match storeGet sessions state with
  | none => (none, sessions)
  | some s =>
    if now - s.createdAt > SESSION_EXPIRATION_MS then (none, storeDelete sessions state)
    else (some s, sessions)

/-- `deleteSession(state)`. -/
def deleteSession (sessions : List (String × SessionData)) (state : String) :
    List (String × SessionData) :=
  storeDelete sessions state

/-! ## Claims assembler (`src/auth/claims.helper.ts`) -/

/-- User info from the identity provider (`IdpUserInfo`). -/
structure IdpUserInfo where
  objectId : String
  email : String
  name : String
  roles : List String
  groups : List String
deriving DecidableEq, Repr

/-- Optional claims loaded from the datastore (`ApiUserClaims`). -/
structure ApiUserClaims where
  personId : Option String := none
  status : Option String := none
  personUuid : Option String := none
  apps : Option (List (String × JWTAppClaims)) := none
  aud : Option (List String) := none
deriving DecidableEq, Repr

/-- Default `Person_uuid` used when no datastore claims are present. -/
def DEFAULT_PERSON_UUID : String := "8b3d3f9d-03d4-4d0a-8e15-482b35c3850f"

/-- The fixed default per-application claims map (mock data used until the
datastore provides `apps`). -/
def defaultApps : List (String × JWTAppClaims) :=
  [("pulse", { uid := "PULSE_99", roles := ["PRODUCER"] }),
   ("key", { uid := "KEY_UUID_1", roles := ["ARTIST"] })]

/-- `buildUserClaims(idpUser, apiClaims)`: merge identity-provider identity
with optional datastore claims; every datastore field falls back to a
default, and `aud` is attached only when present and non-empty (JS truthiness:
an empty array still reaches the `length > 0` test and is dropped there). -/
def buildUserClaims (idpUser : IdpUserInfo) (apiClaims : Option ApiUserClaims) :
    JWTPayloadInput :=
  let entraUuid := idpUser.objectId
  let personId := (apiClaims.bind (·.personId)).getD entraUuid
  let status := (apiClaims.bind (·.status)).getD "Active"
  let personUuid := (apiClaims.bind (·.personUuid)).getD DEFAULT_PERSON_UUID
  let identity : JWTIdentity :=
    { email := idpUser.email, status := status,
      entra_uuid := entraUuid, Person_uuid := personUuid }
  let apps := (apiClaims.bind (·.apps)).getD defaultApps
  let aud : Option (List String) :=
    match apiClaims.bind (·.aud) with
    | some l => if l ≠ [] then some l else none
    | none => none
  { sub := personId, identity := identity, apps := apps, aud := aud }

/-! ## Callback controller (`src/auth/callback.controller.ts`) -/

/-- The request fields the callback handler reads (`code`, `state`, `error`,
`error_description` from the query; the `auth_state` cookie), plus
`providerParam`: a provider value an attacker may supply anywhere in the
request — the handler never reads it, which the provider-integrity theorem
makes explicit. -/
structure CallbackRequest where
  code : Option String
  state : Option String
  error : Option String
  error_description : Option String
  auth_state_cookie : Option String
  providerParam : Option String
deriving DecidableEq, Repr

/-- Where the callback handler stops, or the identity-provider exchange it
proceeds to: every non-`proceed` phase is answered with HTTP 400. -/
inductive CallbackPhase where
  | oauthError
  | missingCode
  | missingState
  | stateMismatch
  | sessionNotFound
  | proceed (authProvider : String) (session : SessionData)
deriving DecidableEq, Repr

/-- HTTP status written by each early-return phase (`proceed` continues to
the identity-provider exchange instead of answering immediately). -/
def phaseStatus : CallbackPhase → Option Nat
  | .oauthError => some 400
  | .missingCode => some 400
  | .missingState => some 400
  | .stateMismatch => some 400
  | .sessionNotFound => some 400
  | .proceed _ _ => none

/-- Result of the callback handler up to the identity-provider exchange:
reached phase, session store afterwards, and whether `getSession` was called. -/
structure CallbackResult where
  phase : CallbackPhase
  sessions : List (String × SessionData)
  sessionLookedUp : Bool
deriving DecidableEq, Repr

/-- `(sessionData.provider || 'microsoft').toLowerCase()`. -/
def sessionAuthProvider (s : SessionData) : String :=
  toLowerStr
    (match s.provider with
     | some p => if p = "" then "microsoft" else p
     | none => "microsoft")

/-- The two identity-provider exchange logics selectable at callback time. -/
inductive IdpExchange where
  | google
  | microsoft
deriving DecidableEq, Repr

/-- `if (authProvider === 'google') … else …` — the provider branch of the
callback. -/
def chosenIdpExchange (authProvider : String) : IdpExchange :=
  if authProvider = "google" then .google else .microsoft

/-- `callback(req, res)` up to the identity-provider exchange: OAuth error
passthrough, parameter validation, CSRF state-cookie check, session lookup and
cleanup, and provider selection from the session. -/
def callback (sessions : List (String × SessionData)) (now : Nat)
    (req : CallbackRequest) : CallbackResult :=
  if strFalsy req.error = false then ⟨.oauthError, sessions, false⟩
  else if strFalsy req.code then ⟨.missingCode, sessions, false⟩
  else if strFalsy req.state then ⟨.missingState, sessions, false⟩
  else
    let st := req.state.getD ""
    if req.auth_state_cookie ≠ some st then ⟨.stateMismatch, sessions, false⟩
    else
      match getSession sessions now st with
      | (none, sessions1) => ⟨.sessionNotFound, sessions1, true⟩
      | (some sd, sessions1) =>
        ⟨.proceed (sessionAuthProvider sd) sd, deleteSession sessions1 st, true⟩

/-- Which identity-provider exchange the callback performs, if any. -/
def callbackIdpExchange (sessions : List (String × SessionData)) (now : Nat)
    (req : CallbackRequest) : Option IdpExchange :=
  match (callback sessions now req).phase with
  | .proceed p _ => some (chosenIdpExchange p)
  | _ => none

/-! ## Sign-up split flow: verify-otp (signup controller) -/

/-- Validity test for a required string body field with trimming:
`!x || typeof x !== 'string' || !x.trim()`. -/
def strBlank : Option String → Bool
  | none => true
  | some s => trimStr s = ""

/-- Native Auth API continuation response shape
(`NativeAuthContinuationResponse`). -/
structure NativeAuthContinuationResponse where
  continuation_token : Option String := none
  challenge_type : Option String := none
  error : Option String := none
  error_description : Option String := none
  continuation_token_new : Option String := none
deriving DecidableEq, Repr

/-- Modelled from the spec: `storePostOtpContinuationToken` — the current
`token.store.ts` revision defining it is not among the sources here, only
the import and call sites in the signup controller are. Per spec §3 it is an
independent per-stage continuation-token store keyed by email with a
10-minute TTL, entries overwritten on restart: put the token under the
(already normalised) email key with the current timestamp, in a store
distinct from the sign-up start-stage store. -/
def storePostOtpContinuationToken (store : List (String × SignupTokenData))
    (now : Nat) (email continuationToken : String) : List (String × SignupTokenData) :=
  storeSet store email { continuationToken := continuationToken, createdAt := now }

/-- JSON response of `POST /auth/signup/verify-otp` (journey bookkeeping
fields aside). -/
structure VerifyOtpResponse where
  status : Nat
  error : Option String := none
  error_description : Option String := none
  ok : Option Bool := none
deriving DecidableEq, Repr

/-- Result of `signupVerifyOtp`: response plus both continuation-token
stores afterwards. -/
structure SignupVerifyOtpResult where
  response : VerifyOtpResponse
  signupStore : List (String × SignupTokenData)
  postOtpStore : List (String × SignupTokenData)
deriving DecidableEq, Repr

/-- `signupVerifyOtp(req)`: validate body, consume the start-stage
continuation token, then call the provider `signup/continue` with the OTP
(the provider's response is a parameter: `providerStatus`, `providerData`).
A 400 `credential_required` response carrying a *truthy* continuation token
(`continueOobData.continuation_token` is tested for JS truthiness, so an
empty string does not count) is the expected success of this stage; a 200
yields `continuation_token ?? continuation_token_new` (nullish coalescing, so
an empty string is kept here); everything else falls to the failure branch.
The result is then re-checked with `if (!newContinuationToken)`, so a missing
*or empty* token is answered 401 `invalid_grant` with nothing persisted.
Best-effort registration-journey datastore writes do not affect the response
and are not modelled. -/
def signupVerifyOtp (hasTenant : Bool)
    (signupStore postOtpStore : List (String × SignupTokenData)) (now : Nat)
    (email code : Option String)
    (providerStatus : Nat) (providerData : NativeAuthContinuationResponse) :
    SignupVerifyOtpResult :=
  if strBlank email then
    ⟨{ status := 400, error := some "email is required" }, signupStore, postOtpStore⟩
  else if strBlank code then
    ⟨{ status := 400, error := some "code is required" }, signupStore, postOtpStore⟩
  else if hasTenant = false then
    ⟨{ status := 503, error := some "native_auth_unavailable" }, signupStore, postOtpStore⟩
  else
    let emailTrimmed := toLowerStr (trimStr (email.getD ""))
    match getSignupContinuationToken signupStore now emailTrimmed with
    | (none, signupStore1) =>
      ⟨{ status := 401, error := some "expired_token",
         error_description := some "Verification code expired. Please start sign-up again." },
       signupStore1, postOtpStore⟩
    | (some _, signupStore1) =>
      let newContinuationToken : Option String :=
        if providerStatus = 400 ∧ providerData.error = some "credential_required" ∧
            strFalsy providerData.continuation_token = false then
          providerData.continuation_token
        else if providerStatus = 200 then
          match providerData.continuation_token with
          | some t => some t
          | none => providerData.continuation_token_new
        else none
      if strFalsy newContinuationToken then
        ⟨{ status := 401, error := some "invalid_grant",
           error_description := some "Invalid verification code" },
         signupStore1, postOtpStore⟩
      else
        ⟨{ status := 200, ok := some true },
         signupStore1,
         storePostOtpContinuationToken postOtpStore now emailTrimmed
           (newContinuationToken.getD "")⟩

/-! ## Password reset: sign-in after successful password submission -/

/-- Token response of the native-auth sign-in helper. -/
structure SignInTokens where
  id_token : Option String := none
  access_token : Option String := none
  expires_in : Option Nat := none
deriving DecidableEq, Repr

/-- Outcome of one `nativeAuthSignIn` attempt: tokens, or a thrown error
message. -/
inductive SignInAttemptResult where
  | ok (tokens : SignInTokens)
  | err (msg : String)
deriving DecidableEq, Repr

/-- `isRetryableSignInError(err)`: the provider's password-not-yet-propagated
signal, detected on the lowercased message. -/
def isRetryableSignInError (msg : String) : Bool :=
  let lower := toLowerStr msg
  strContainsSub lower "password_expired" ||
  strContainsSub lower "user_password_expired" ||
  strContainsSub lower "aadsts50055" ||
  strContainsSub lower "expired"

/-- Number of sign-in attempts made and the final sign-in outcome. -/
structure ResetSignInFlow where
  attempts : Nat
  result : SignInAttemptResult
deriving DecidableEq, Repr

/-- The try/retry block of `passwordResetSubmitPassword` after the provider
accepted the new password: attempt the sign-in; only on a retryable first
failure sleep and attempt exactly once more; any other failure propagates.
`first`/`second` are the outcomes the provider would give each attempt. -/
def signInAfterReset (first second : SignInAttemptResult) : ResetSignInFlow :=
  match first with
  | .ok t => ⟨1, .ok t⟩
  | .err m => if isRetryableSignInError m then ⟨2, second⟩ else ⟨1, .err m⟩

/-- Endpoint outcome of the sign-in phase of `passwordResetSubmitPassword`. -/
structure ResetSubmitOutcome where
  attempts : Nat
  status : Nat
  sign_in_after_reset_failed : Bool
  tokens : Option SignInTokens
deriving DecidableEq, Repr

/-- Continuation of `passwordResetSubmitPassword` after the provider accepted
the new password: on a (possibly retried) sign-in failure, or a sign-in
without an `id_token`, answer 200 with `sign_in_after_reset_failed: true`
("please sign in manually"); otherwise carry the tokens on towards claims
assembly and issuance. -/
def passwordResetSignInPhase (first second : SignInAttemptResult) : ResetSubmitOutcome :=
  let flow := signInAfterReset first second
  match flow.result with
  | .err _ => ⟨flow.attempts, 200, true, none⟩
  | .ok t =>
    match t.id_token with
    | none => ⟨flow.attempts, 200, true, none⟩
    | some _ => ⟨flow.attempts, 200, false, some t⟩

/-! ## Theorems -/

/-- C1: for every stored exchange code, `consumeExchangeCode(code, clientId)`
returns the stored access token, refresh token and expires-in value if and
only if an entry for that code exists, its age is at most 5 minutes, and the
presented clientId equals the clientId recorded at creation; a successful
consume deletes the entry, so a second consume of the same code returns null,
and the exchange endpoint then answers 400 `invalid_grant`. -/
theorem consumeExchangeCode_spec
    (store : List (String × ExchangeCodeData)) (now now2 : Nat)
    (code clientId clientId2 : String) :
    (storeGet store code = none → (consumeExchangeCode store now code clientId).1 = none) ∧
    (∀ d : ExchangeCodeData, storeGet store code = some d →
      (consumeExchangeCode store now code clientId).1 =
        (if now - d.createdAt ≤ EXCHANGE_CODE_TTL_MS ∧ d.clientId = clientId
         then some ⟨d.accessToken, d.refreshToken, d.expiresIn⟩ else none)) ∧
    ((consumeExchangeCode
        (consumeExchangeCode store now code clientId).2 now2 code clientId2).1 = none) ∧
    ((consumeExchangeCode store now code clientId).1 = none → code ≠ "" → clientId ≠ "" →
      (exchangeToken store now (some code) (some clientId)).1.status = 400 ∧
      (exchangeToken store now (some code) (some clientId)).1.error = some "invalid_grant") := by
  refine ⟨?_, ?_, ?_, ?_⟩
  · intro h
    simp [consumeExchangeCode, h]
  · intro d h
    simp only [consumeExchangeCode, h]
    by_cases hexp : now - d.createdAt > EXCHANGE_CODE_TTL_MS
    · rw [if_pos hexp, if_neg (by omega)]
    · rw [if_neg hexp]
      by_cases hcid : d.clientId = clientId
      · rw [if_neg (by simp [hcid]), if_pos ⟨by omega, hcid⟩]
      · rw [if_pos (by simp [hcid]), if_neg (by simp [hcid])]
  · have hdel : (consumeExchangeCode store now code clientId).2 = storeDelete store code := by
      simp only [consumeExchangeCode]
      cases h : storeGet store code with
      | none => rfl
      | some d =>
        by_cases hexp : now - d.createdAt > EXCHANGE_CODE_TTL_MS
        · simp [hexp]
        · by_cases hcid : d.clientId ≠ clientId
          · simp [hexp, hcid]
          · simp [hexp, hcid]
    rw [hdel]
    simp [consumeExchangeCode, storeGet_delete_self]
  · intro hnone hc hcid
    have h1 : strFalsy (some code) = false := by simp [strFalsy, hc]
    have h2 : strFalsy (some clientId) = false := by simp [strFalsy, hcid]
    have hmatch :
        consumeExchangeCode store now code clientId =
          (none, (consumeExchangeCode store now code clientId).2) := by
      rw [← hnone]
    constructor
    · simp only [exchangeToken, h1, h2, Bool.false_eq_true, if_false, Option.getD_some]
      rw [hmatch]
    · simp only [exchangeToken, h1, h2, Bool.false_eq_true, if_false, Option.getD_some]
      rw [hmatch]

/-- C1 witness: a freshly created exchange code consumed with the right
client id yields the stored tokens, and a replay of the same code is refused
by the exchange endpoint with 400 `invalid_grant`. -/
theorem consumeExchangeCode_spec_witness :
    (consumeExchangeCode
        [("ec1", ⟨"tokA", some "rtA", 900, "app1", 0⟩)] 1000 "ec1" "app1").1 =
      some ⟨"tokA", some "rtA", 900⟩ ∧
    (consumeExchangeCode
        (consumeExchangeCode
          [("ec1", ⟨"tokA", some "rtA", 900, "app1", 0⟩)] 1000 "ec1" "app1").2
        2000 "ec1" "app1").1 = none ∧
    (exchangeToken [] 2000 (some "ec1") (some "app1")).1.status = 400 ∧
    (exchangeToken [] 2000 (some "ec1") (some "app1")).1.error = some "invalid_grant" := by
  have h := consumeExchangeCode_spec
    [("ec1", ⟨"tokA", some "rtA", 900, "app1", 0⟩)] 1000 2000 "ec1" "app1" "app1"
  refine ⟨?_, h.2.2.1, ?_⟩
  · have := h.2.1 ⟨"tokA", some "rtA", 900, "app1", 0⟩ (by decide)
    rw [this, if_pos (by exact ⟨by decide, rfl⟩)]
  · have h0 := consumeExchangeCode_spec [] 2000 2000 "ec1" "app1" "app1"
    exact h0.2.2.2 (h0.1 (by decide)) (by decide) (by decide)

/-- C10: `consumeExchangeCode` always deletes the entry for the presented
code before any validity check — also when it returns null because the code
is expired or the client id does not match — so after any first consume
attempt (in particular one with a wrong clientId), a later consume of the
same code with any clientId returns null. -/
theorem consumeExchangeCode_burns_code
    (store : List (String × ExchangeCodeData)) (now1 now2 : Nat)
    (code cid1 cid2 : String) :
    (consumeExchangeCode store now1 code cid1).2 = storeDelete store code ∧
    (consumeExchangeCode
        (consumeExchangeCode store now1 code cid1).2 now2 code cid2).1 = none := by
  have hdel : (consumeExchangeCode store now1 code cid1).2 = storeDelete store code := by
    simp only [consumeExchangeCode]
    cases h : storeGet store code with
    | none => rfl
    | some d =>
      by_cases hexp : now1 - d.createdAt > EXCHANGE_CODE_TTL_MS
      · simp [hexp]
      · by_cases hcid : d.clientId ≠ cid1
        · simp [hexp, hcid]
        · simp [hexp, hcid]
  refine ⟨hdel, ?_⟩
  rw [hdel]
  simp [consumeExchangeCode, storeGet_delete_self]

/-- C2: for every stored, unexpired refresh token `rt`, the refresh endpoint
answers 200 with a freshly signed access token and a new refresh token (the
`refresh_token` field is always present on success), deletes the entry for
`rt` (rotation), and a second refresh call with the same `rt` answers 400
`invalid_grant`. `newToken`/`newToken2` stand for the randomly generated
opaque replacement tokens, which differ from the spent one. -/
theorem refreshTokenEndpoint_rotation (cfg : Config)
    (store : List (String × RefreshTokenData)) (rt newToken newToken2 : String)
    (payload : JWTPayloadInput) (T nowMs nowSec now2Ms now2Sec : Nat)
    (hrt : rt ≠ "") (hfresh : newToken ≠ rt)
    (hmem : storeGet store rt = some ⟨payload, T⟩)
    (hnotexp : nowMs - T ≤ getRefreshTokenTTL cfg) :
    (refreshTokenEndpoint cfg store nowMs nowSec newToken (some rt)).1.status = 200 ∧
    (refreshTokenEndpoint cfg store nowMs nowSec newToken (some rt)).1.access_token =
      some (JWTService.sign cfg nowSec payload) ∧
    (refreshTokenEndpoint cfg store nowMs nowSec newToken (some rt)).1.refresh_token =
      some newToken ∧
    storeGet (refreshTokenEndpoint cfg store nowMs nowSec newToken (some rt)).2 rt = none ∧
    (refreshTokenEndpoint cfg
        (refreshTokenEndpoint cfg store nowMs nowSec newToken (some rt)).2
        now2Ms now2Sec newToken2 (some rt)).1.status = 400 ∧
    (refreshTokenEndpoint cfg
        (refreshTokenEndpoint cfg store nowMs nowSec newToken (some rt)).2
        now2Ms now2Sec newToken2 (some rt)).1.error = some "invalid_grant" := by
  have hfalsy : strFalsy (some rt) = false := by simp [strFalsy, hrt]
  have hconsume :
      consumeRefreshToken cfg store nowMs rt true =
        (some payload, storeDelete store rt) := by
    simp only [consumeRefreshToken, hmem, if_true]
    rw [if_neg (by omega)]
  have hfirst :
      refreshTokenEndpoint cfg store nowMs nowSec newToken (some rt) =
        ({ status := 200, access_token := some (JWTService.sign cfg nowSec payload),
           token_type := some "Bearer",
           expires_in := some (cfg.jwtExpirationMinutes * 60),
           refresh_token := some newToken },
         createRefreshToken (storeDelete store rt) nowMs newToken payload) := by
    simp only [refreshTokenEndpoint, hfalsy, Bool.false_eq_true, if_false,
      Option.getD_some]
    rw [hconsume]
  have hgone :
      storeGet (createRefreshToken (storeDelete store rt) nowMs newToken payload) rt =
        none := by
    unfold createRefreshToken
    rw [storeGet_set_ne _ _ _ _ (fun e => hfresh e.symm)]
    exact storeGet_delete_self store rt
  rw [hfirst]
  refine ⟨rfl, rfl, rfl, hgone, ?_, ?_⟩ <;>
    simp [refreshTokenEndpoint, hfalsy, consumeRefreshToken, hgone]

/-- C2 witness: a concrete stored refresh token is rotated — 200 with a new
signed access token and new refresh token, and replaying the old token gives
400 `invalid_grant`. -/
theorem refreshTokenEndpoint_rotation_witness :
    (refreshTokenEndpoint
        ⟨"pk", "pub", "iss", ["aud1"], 15, 30⟩
        [("rt1", ⟨⟨"sub1", ⟨"a@b.com", "Active", "e1", "p1"⟩, [], none⟩, 0⟩)]
        1000 1 "rt2" (some "rt1")).1.status = 200 ∧
    (refreshTokenEndpoint
        ⟨"pk", "pub", "iss", ["aud1"], 15, 30⟩
        (refreshTokenEndpoint
          ⟨"pk", "pub", "iss", ["aud1"], 15, 30⟩
          [("rt1", ⟨⟨"sub1", ⟨"a@b.com", "Active", "e1", "p1"⟩, [], none⟩, 0⟩)]
          1000 1 "rt2" (some "rt1")).2
        2000 2 "rt3" (some "rt1")).1.error = some "invalid_grant" := by
  have h := refreshTokenEndpoint_rotation
    ⟨"pk", "pub", "iss", ["aud1"], 15, 30⟩
    [("rt1", ⟨⟨"sub1", ⟨"a@b.com", "Active", "e1", "p1"⟩, [], none⟩, 0⟩)]
    "rt1" "rt2" "rt3" ⟨"sub1", ⟨"a@b.com", "Active", "e1", "p1"⟩, [], none⟩
    0 1000 1 2000 2 (by decide) (by decide) (by decide) (by decide)
  exact ⟨h.1, h.2.2.2.2.2⟩

/-- C3: for every callback request with non-empty `code` and `state` query
parameters, if the `auth_state` cookie is absent or differs from the `state`
query parameter, the callback answers 400 and goes no further: the session
store is neither read (no `getSession` call) nor changed, and no
identity-provider exchange is performed. -/
theorem callback_csrf_reject (sessions : List (String × SessionData)) (now : Nat)
    (req : CallbackRequest)
    (hcode : strFalsy req.code = false) (hstate : strFalsy req.state = false)
    (hcookie : req.auth_state_cookie ≠ req.state) :
    phaseStatus (callback sessions now req).phase = some 400 ∧
    (callback sessions now req).sessionLookedUp = false ∧
    (callback sessions now req).sessions = sessions ∧
    callbackIdpExchange sessions now req = none := by
  cases hst : req.state with
  | none => rw [hst] at hstate; simp [strFalsy] at hstate
  | some st =>
    have hck : req.auth_state_cookie ≠ some st := by rw [hst] at hcookie; exact hcookie
    by_cases herr : strFalsy req.error = false
    · have hcb : callback sessions now req = ⟨.oauthError, sessions, false⟩ := by
        simp [callback, herr]
      simp [hcb, callbackIdpExchange, phaseStatus]
    · have herr' : strFalsy req.error = true := by
        cases h : strFalsy req.error with
        | false => exact absurd h herr
        | true => rfl
      have hstate' : strFalsy (some st) = false := hst ▸ hstate
      have hcb : callback sessions now req = ⟨.stateMismatch, sessions, false⟩ := by
        simp only [callback, herr', hst]
        rw [if_neg (by simp), if_neg (by simp [hcode]), if_neg (by simp [hstate'])]
        simp only [Option.getD_some]
        rw [if_pos hck]
      simp [hcb, callbackIdpExchange, phaseStatus]

/-- C3 witness: non-empty code and state with a mismatching cookie are
rejected with 400, the session store untouched, no provider exchange. -/
theorem callback_csrf_reject_witness :
    phaseStatus (callback [] 0 ⟨some "c", some "st", none, none, some "other", none⟩).phase =
      some 400 ∧
    (callback [] 0 ⟨some "c", some "st", none, none, some "other", none⟩).sessionLookedUp =
      false ∧
    (callback [] 0 ⟨some "c", some "st", none, none, some "other", none⟩).sessions = [] ∧
    callbackIdpExchange [] 0 ⟨some "c", some "st", none, none, some "other", none⟩ = none :=
  callback_csrf_reject [] 0 ⟨some "c", some "st", none, none, some "other", none⟩
    (by decide) (by decide) (by decide)

/-- C4: the identity-provider exchange logic chosen at callback time does not
depend on any provider value supplied in the request: two callback requests
identical except for the supplied provider value produce identical results,
and on the proceed path the chosen provider is exactly the one recorded in
the authorization session at login time, defaulting to microsoft. -/
theorem callback_provider_integrity (sessions : List (String × SessionData)) (now : Nat) :
    (∀ req1 req2 : CallbackRequest,
      req1.code = req2.code → req1.state = req2.state → req1.error = req2.error →
      req1.error_description = req2.error_description →
      req1.auth_state_cookie = req2.auth_state_cookie →
      callback sessions now req1 = callback sessions now req2 ∧
      callbackIdpExchange sessions now req1 = callbackIdpExchange sessions now req2) ∧
    (∀ (req : CallbackRequest) (p : String) (sd : SessionData),
      (callback sessions now req).phase = .proceed p sd →
      ∃ st, req.state = some st ∧ (getSession sessions now st).1 = some sd ∧
        p = sessionAuthProvider sd) := by
  constructor
  · rintro ⟨c1, s1, e1, d1, k1, p1⟩ ⟨c2, s2, e2, d2, k2, p2⟩ hc hs he hd hk
    simp only at hc hs he hd hk
    subst hc; subst hs; subst he; subst hd; subst hk
    exact ⟨rfl, rfl⟩
  · intro req p sd h
    simp only [callback] at h
    by_cases herr : strFalsy req.error = false
    · rw [if_pos herr] at h; exact absurd h (by simp)
    · rw [if_neg herr] at h
      by_cases hcode : strFalsy req.code
      · rw [if_pos hcode] at h; exact absurd h (by simp)
      · rw [if_neg hcode] at h
        by_cases hstate : strFalsy req.state
        · rw [if_pos hstate] at h; exact absurd h (by simp)
        · rw [if_neg hstate] at h
          by_cases hck : req.auth_state_cookie ≠ some (req.state.getD "")
          · rw [if_pos hck] at h; exact absurd h (by simp)
          · rw [if_neg hck] at h
            cases hses : getSession sessions now (req.state.getD "") with
            | mk fst snd =>
              rw [hses] at h
              cases fst with
              | none => exact absurd h (by simp)
              | some sd' =>
                simp only [CallbackPhase.proceed.injEq] at h
                obtain ⟨hp, hsd⟩ := h
                refine ⟨req.state.getD "", ?_, ?_, hp.symm ▸ (hsd ▸ rfl)⟩
                · cases hst : req.state with
                  | none => rw [hst] at hstate; simp [strFalsy] at hstate
                  | some st => simp
                · rw [hses]; simp [hsd]

/-- C4 witness: with a session that recorded google at login, two callbacks
differing only in an attacker-supplied provider value give the same result,
and the chosen provider is the session's recorded one. -/
theorem callback_provider_integrity_witness :
    callback [("st1", ⟨"cv", "n", "https://app/cb", some "google", "app1", 0⟩)] 5
        ⟨some "c", some "st1", none, none, some "st1", some "microsoft"⟩ =
      callback [("st1", ⟨"cv", "n", "https://app/cb", some "google", "app1", 0⟩)] 5
        ⟨some "c", some "st1", none, none, some "st1", none⟩ ∧
    (∃ st, (some "st1" : Option String) = some st ∧
      (getSession [("st1", ⟨"cv", "n", "https://app/cb", some "google", "app1", 0⟩)] 5 st).1 =
        some ⟨"cv", "n", "https://app/cb", some "google", "app1", 0⟩ ∧
      "google" = sessionAuthProvider ⟨"cv", "n", "https://app/cb", some "google", "app1", 0⟩) := by
  have h := callback_provider_integrity
    [("st1", ⟨"cv", "n", "https://app/cb", some "google", "app1", 0⟩)] 5
  refine ⟨(h.1 ⟨some "c", some "st1", none, none, some "st1", some "microsoft"⟩
      ⟨some "c", some "st1", none, none, some "st1", none⟩ rfl rfl rfl rfl rfl).1, ?_⟩
  exact h.2 ⟨some "c", some "st1", none, none, some "st1", some "microsoft"⟩
    "google" ⟨"cv", "n", "https://app/cb", some "google", "app1", 0⟩ rfl

/-- A non-empty expected-audience list always matches itself. -/
theorem audience_self_match (l : List String) (h : l ≠ []) :
    l.any (fun a => l.contains a) = true := by
  cases l with
  | nil => exact absurd rfl h
  | cons a t =>
    have hc : (a :: t).contains a = true := by simp
    simp only [List.any_cons]
    rw [hc]
    rfl

/-- C5: for every well-formed claim-set input `p`, verifying `sign(p)` before
`exp` succeeds and returns `p` plus the added `iss`, `aud`, `iat` and `exp`
fields with `exp = iat + jwtExpirationMinutes * 60`; verifying at or after
`exp` fails with the distinguished expired classification, which differs from
every malformed/invalid-token error. -/
theorem jwt_sign_verify_roundtrip (cfg : Config) (p : JWTPayloadInput)
    (tSign tVerify tLate : Nat)
    (h1 : tVerify < tSign + cfg.jwtExpirationMinutes * 60)
    (h2 : tSign + cfg.jwtExpirationMinutes * 60 ≤ tLate) :
    JWTService.verify cfg tVerify (JWTService.sign cfg tSign p) =
      .ok { iss := some cfg.jwtIssuer, sub := p.sub, aud := some cfg.jwtAudience,
            exp := some (tSign + cfg.jwtExpirationMinutes * 60), iat := some tSign,
            identity := p.identity, apps := p.apps } ∧
    JWTService.verify cfg tLate (JWTService.sign cfg tSign p) =
      .error .expired ∧
    (∀ msg, VerifyError.expired ≠ VerifyError.invalid msg) := by
  refine ⟨?_, ?_, fun msg h => by cases h⟩
  · simp only [JWTService.verify, JWTService.sign, ne_eq, not_true_eq_false,
      if_false, ite_not]
    rw [if_neg (by omega)]
    simp only [JWTService.verifyClaims]
    by_cases haud : cfg.jwtAudience = []
    · rw [if_neg (by simp [haud])]
      simp
    · rw [if_pos (by simp [haud])]
      rw [audience_self_match cfg.jwtAudience haud]
      simp
  · simp only [JWTService.verify, JWTService.sign, ne_eq, not_true_eq_false,
      if_false, ite_not]
    rw [if_pos (by omega)]

/-- C5 witness: a concrete payload round-trips through sign/verify before
expiry and is classified expired afterwards. -/
theorem jwt_sign_verify_roundtrip_witness :
    JWTService.verify ⟨"pk", "pub", "iss1", ["aud1"], 15, 30⟩ 100
        (JWTService.sign ⟨"pk", "pub", "iss1", ["aud1"], 15, 30⟩ 100
          ⟨"sub1", ⟨"a@b.com", "Active", "e1", "p1"⟩, [("pulse", ⟨"U1", ["R1"]⟩)], none⟩) =
      .ok { iss := some "iss1", sub := "sub1", aud := some ["aud1"],
            exp := some (100 + 15 * 60), iat := some 100,
            identity := ⟨"a@b.com", "Active", "e1", "p1"⟩,
            apps := [("pulse", ⟨"U1", ["R1"]⟩)] } ∧
    JWTService.verify ⟨"pk", "pub", "iss1", ["aud1"], 15, 30⟩ 1000
        (JWTService.sign ⟨"pk", "pub", "iss1", ["aud1"], 15, 30⟩ 100
          ⟨"sub1", ⟨"a@b.com", "Active", "e1", "p1"⟩, [("pulse", ⟨"U1", ["R1"]⟩)], none⟩) =
      .error .expired := by
  have h := jwt_sign_verify_roundtrip ⟨"pk", "pub", "iss1", ["aud1"], 15, 30⟩
    ⟨"sub1", ⟨"a@b.com", "Active", "e1", "p1"⟩, [("pulse", ⟨"U1", ["R1"]⟩)], none⟩
    100 100 1000 (by norm_num) (by norm_num)
  exact ⟨h.1, h.2.1⟩

/-- C7: `buildUserClaims` is total (it never throws); with null/absent
datastore claims it returns the fixed non-empty default application-claims
map, subject equal to the identity-provider subject id, and no audience
field; with datastore claims present, subject equals the datastore person id
and an `aud` list is included exactly when the datastore audience is present
and non-empty, in which case it is that list. -/
theorem buildUserClaims_spec (idp : IdpUserInfo) :
    (buildUserClaims idp none =
      { sub := idp.objectId,
        identity := { email := idp.email, status := "Active",
                      entra_uuid := idp.objectId, Person_uuid := DEFAULT_PERSON_UUID },
        apps := defaultApps, aud := none } ∧
      defaultApps ≠ []) ∧
    (∀ (c : ApiUserClaims) (pid : String), c.personId = some pid →
      (buildUserClaims idp (some c)).sub = pid) ∧
    (∀ c : ApiUserClaims,
      ((buildUserClaims idp (some c)).aud ≠ none ↔
        ∃ l, c.aud = some l ∧ l ≠ []) ∧
      (∀ l, c.aud = some l → l ≠ [] → (buildUserClaims idp (some c)).aud = some l)) := by
  refine ⟨⟨by simp [buildUserClaims], by simp [defaultApps]⟩, ?_, ?_⟩
  · intro c pid h
    simp [buildUserClaims, h]
  · intro c
    constructor
    · constructor
      · intro h
        cases hl : c.aud with
        | none => simp [buildUserClaims, hl] at h
        | some l =>
          by_cases hnil : l = []
          · simp [buildUserClaims, hl, hnil] at h
          · exact ⟨l, rfl, hnil⟩
      · rintro ⟨l, hl, hnil⟩
        simp [buildUserClaims, hl, hnil]
    · intro l hl hnil
      simp [buildUserClaims, hl, hnil]

/-- C7 witness: concrete identity-provider users through the
null-datastore-claims fallback and the datastore-claims path. -/
theorem buildUserClaims_spec_witness :
    (buildUserClaims ⟨"oid1", "a@b.com", "Ann", [], []⟩ none =
      { sub := "oid1",
        identity := ⟨"a@b.com", "Active", "oid1", DEFAULT_PERSON_UUID⟩,
        apps := defaultApps, aud := none } ∧
      defaultApps ≠ []) ∧
    (buildUserClaims ⟨"oid1", "a@b.com", "Ann", [], []⟩
        (some { personId := some "P7", aud := some ["appX"] })).sub = "P7" ∧
    (buildUserClaims ⟨"oid1", "a@b.com", "Ann", [], []⟩
        (some { personId := some "P7", aud := some ["appX"] })).aud = some ["appX"] := by
  have h := buildUserClaims_spec ⟨"oid1", "a@b.com", "Ann", [], []⟩
  exact ⟨h.1,
    h.2.1 { personId := some "P7", aud := some ["appX"] } "P7" rfl,
    (h.2.2 { personId := some "P7", aud := some ["appX"] }).2 ["appX"] rfl (by decide)⟩

/-- C8: in each of the four ephemeral stores, an entry created at time `T`
is returned by a get/consume at any time up to `T` plus its TTL (10 minutes
for authorization sessions and sign-up continuation tokens, 5 minutes for
exchange codes, the configured number of days for refresh tokens) and is
treated as absent by a get/consume strictly later than `T` plus its TTL. -/
theorem store_ttl_expiry (cfg : Config)
    (sessions : List (String × SessionData))
    (exch : List (String × ExchangeCodeData))
    (refr : List (String × RefreshTokenData))
    (signup : List (String × SignupTokenData))
    (now : Nat) (stateKey codeKey tokenKey email : String) (rotate : Bool)
    (sd : SessionData) (ed : ExchangeCodeData) (rd : RefreshTokenData)
    (gd : SignupTokenData)
    (hs : storeGet sessions stateKey = some sd)
    (he : storeGet exch codeKey = some ed)
    (hr : storeGet refr tokenKey = some rd)
    (hg : storeGet signup (signupKey email) = some gd) :
    ((getSession sessions now stateKey).1 = some sd ↔
      now ≤ sd.createdAt + SESSION_EXPIRATION_MS) ∧
    ((consumeExchangeCode exch now codeKey ed.clientId).1 =
        some ⟨ed.accessToken, ed.refreshToken, ed.expiresIn⟩ ↔
      now ≤ ed.createdAt + EXCHANGE_CODE_TTL_MS) ∧
    ((consumeRefreshToken cfg refr now tokenKey rotate).1 = some rd.payload ↔
      now ≤ rd.createdAt + getRefreshTokenTTL cfg) ∧
    ((getSignupContinuationToken signup now email).1 = some gd.continuationToken ↔
      now ≤ gd.createdAt + SIGNUP_TOKEN_TTL_MS) := by
  refine ⟨?_, ?_, ?_, ?_⟩
  · simp only [getSession, hs]
    by_cases h : now - sd.createdAt > SESSION_EXPIRATION_MS
    · rw [if_pos h]
      simp only [Prod.fst]
      constructor
      · intro hfalse; cases hfalse
      · intro hle; omega
    · rw [if_neg h]
      simp only [Prod.fst]
      constructor
      · intro _; omega
      · intro _; trivial
  · simp only [consumeExchangeCode, he]
    by_cases h : now - ed.createdAt > EXCHANGE_CODE_TTL_MS
    · rw [if_pos h]
      constructor
      · intro hfalse; cases hfalse
      · intro hle; omega
    · rw [if_neg h, if_neg (by simp)]
      constructor
      · intro _; omega
      · intro _; rfl
  · simp only [consumeRefreshToken, hr]
    by_cases h : now - rd.createdAt > getRefreshTokenTTL cfg
    · rw [if_pos h]
      constructor
      · intro hfalse; cases hfalse
      · intro hle; omega
    · rw [if_neg h]
      constructor
      · intro _; omega
      · intro _; rfl
  · simp only [getSignupContinuationToken, hg]
    by_cases h : now - gd.createdAt > SIGNUP_TOKEN_TTL_MS
    · rw [if_pos h]
      constructor
      · intro hfalse; cases hfalse
      · intro hle; omega
    · rw [if_neg h]
      constructor
      · intro _; omega
      · intro _; rfl

/-- C8 witness: concrete entries in all four stores are found exactly at
their TTL boundary and absent just past it. -/
theorem store_ttl_expiry_witness :
    ((getSession [("st", ⟨"cv", "n", "r", some "microsoft", "app", 0⟩)]
        600000 "st").1 = some ⟨"cv", "n", "r", some "microsoft", "app", 0⟩) ∧
    ((getSession [("st", ⟨"cv", "n", "r", some "microsoft", "app", 0⟩)]
        600001 "st").1 ≠ some ⟨"cv", "n", "r", some "microsoft", "app", 0⟩) ∧
    ((consumeExchangeCode [("ec", ⟨"at", none, 900, "app", 0⟩)] 300001 "ec" "app").1 ≠
      some ⟨"at", none, 900⟩) ∧
    ((consumeRefreshToken ⟨"pk", "pub", "i", [], 15, 1⟩
        [("rt", ⟨⟨"s", ⟨"e", "A", "u", "p"⟩, [], none⟩, 0⟩)]
        86400001 "rt" true).1 ≠ some ⟨"s", ⟨"e", "A", "u", "p"⟩, [], none⟩) ∧
    ((getSignupContinuationToken [("a@b.com", ⟨"ct1", 0⟩)] 600000 "a@b.com").1 =
      some "ct1") := by
  have hfull := fun now =>
    store_ttl_expiry ⟨"pk", "pub", "i", [], 15, 1⟩
      [("st", ⟨"cv", "n", "r", some "microsoft", "app", 0⟩)]
      [("ec", ⟨"at", none, 900, "app", 0⟩)]
      [("rt", ⟨⟨"s", ⟨"e", "A", "u", "p"⟩, [], none⟩, 0⟩)]
      [("a@b.com", ⟨"ct1", 0⟩)]
      now "st" "ec" "rt" "a@b.com" true
      ⟨"cv", "n", "r", some "microsoft", "app", 0⟩
      ⟨"at", none, 900, "app", 0⟩ ⟨⟨"s", ⟨"e", "A", "u", "p"⟩, [], none⟩, 0⟩ ⟨"ct1", 0⟩
      (by decide) (by decide) (by decide) (by decide)
  refine ⟨?_, ?_, ?_, ?_, ?_⟩
  · exact (hfull 600000).1.mpr (by decide)
  · intro hcontra
    exact absurd ((hfull 600001).1.mp hcontra) (by decide)
  · intro hcontra
    exact absurd ((hfull 300001).2.1.mp hcontra) (by decide)
  · intro hcontra
    exact absurd ((hfull 86400001).2.2.1.mp hcontra)
      (by simp [getRefreshTokenTTL])
  · exact (hfull 600000).2.2.2.mpr (by decide)

/-- C9: after the provider accepts the new password, the sign-in is attempted
at most twice; a second attempt happens exactly when the first fails with the
provider's password-not-yet-propagated signal, no other failure triggers a
retry, and if the (possibly retried) sign-in still fails the endpoint answers
200 with `sign_in_after_reset_failed: true` instead of an error status. -/
theorem passwordReset_signin_retry_spec (first second : SignInAttemptResult) :
    (signInAfterReset first second).attempts ≤ 2 ∧
    ((signInAfterReset first second).attempts = 2 ↔
      ∃ m, first = .err m ∧ isRetryableSignInError m = true) ∧
    (∀ m, first = .err m → isRetryableSignInError m = false →
      signInAfterReset first second = ⟨1, .err m⟩) ∧
    (∀ m, (signInAfterReset first second).result = .err m →
      (passwordResetSignInPhase first second).status = 200 ∧
      (passwordResetSignInPhase first second).sign_in_after_reset_failed = true) := by
  refine ⟨?_, ?_, ?_, ?_⟩
  · cases first with
    | ok t => simp [signInAfterReset]
    | err m =>
      by_cases h : isRetryableSignInError m
      · simp [signInAfterReset, h]
      · simp [signInAfterReset, h]
  · cases first with
    | ok t =>
      simp [signInAfterReset]
    | err m =>
      by_cases h : isRetryableSignInError m
      · simp only [signInAfterReset, h, if_true]
        exact ⟨fun _ => ⟨m, rfl, h⟩, fun _ => trivial⟩
      · simp only [signInAfterReset, h, if_false]
        constructor
        · intro h1; exact absurd h1 (by norm_num)
        · rintro ⟨m', hm', hr⟩
          cases hm'
          exact absurd hr (by simp [h])
  · intro m hm hr
    subst hm
    simp [signInAfterReset, hr]
  · intro m hres
    simp only [passwordResetSignInPhase]
    rw [hres]
    exact ⟨rfl, rfl⟩

/-- C9 witness: a first failure with the propagation signal is retried once;
when the retry also fails the endpoint answers 200 with
`sign_in_after_reset_failed: true`; a non-retryable failure is not retried. -/
theorem passwordReset_signin_retry_spec_witness :
    (signInAfterReset (.err "AADSTS50055: password not propagated")
        (.err "still failing")).attempts = 2 ∧
    (passwordResetSignInPhase (.err "AADSTS50055: password not propagated")
        (.err "still failing")).status = 200 ∧
    (passwordResetSignInPhase (.err "AADSTS50055: password not propagated")
        (.err "still failing")).sign_in_after_reset_failed = true ∧
    signInAfterReset (.err "invalid_grant: wrong password") (.ok ⟨some "id", none, none⟩) =
      ⟨1, .err "invalid_grant: wrong password"⟩ := by
  have h1 := passwordReset_signin_retry_spec
    (.err "AADSTS50055: password not propagated") (.err "still failing")
  have h2 := passwordReset_signin_retry_spec
    (.err "invalid_grant: wrong password") (.ok ⟨some "id", none, none⟩)
  have hatt := h1.2.1.mpr ⟨"AADSTS50055: password not propagated", rfl, by decide⟩
  have hfail := h1.2.2.2 "still failing" (by decide)
  exact ⟨hatt, hfail.1, hfail.2,
    h2.2.2.1 "invalid_grant: wrong password" rfl (by decide)⟩

/-- C6: in the sign-up split flow with a stored continuation token for the
email, a provider continue(oob) outcome of HTTP 400 `credential_required`
carrying a (truthy, i.e. non-empty) continuation token is treated as success:
200, with that token stored under the distinct post-OTP key; any other
non-200 outcome, a 200 without any continuation token, and a response whose
continuation token is the (falsy) empty string, is answered 401
`invalid_grant` with no post-OTP continuation token persisted. -/
theorem signupVerifyOtp_spec
    (signupStore postOtpStore : List (String × SignupTokenData)) (now : Nat)
    (email code : Option String) (ct : String)
    (providerStatus : Nat) (providerData : NativeAuthContinuationResponse)
    (hemail : strBlank email = false) (hcode : strBlank code = false)
    (hct : (getSignupContinuationToken signupStore now
        (toLowerStr (trimStr (email.getD "")))).1 = some ct) :
    (∀ t, t ≠ "" → providerStatus = 400 →
      providerData.error = some "credential_required" →
      providerData.continuation_token = some t →
      (signupVerifyOtp true signupStore postOtpStore now email code
          providerStatus providerData).response.status = 200 ∧
      storeGet (signupVerifyOtp true signupStore postOtpStore now email code
          providerStatus providerData).postOtpStore
          (toLowerStr (trimStr (email.getD ""))) = some ⟨t, now⟩) ∧
    (providerStatus ≠ 200 →
      ¬(providerStatus = 400 ∧ providerData.error = some "credential_required" ∧
          strFalsy providerData.continuation_token = false) →
      (signupVerifyOtp true signupStore postOtpStore now email code
          providerStatus providerData).response.status = 401 ∧
      (signupVerifyOtp true signupStore postOtpStore now email code
          providerStatus providerData).response.error = some "invalid_grant" ∧
      (signupVerifyOtp true signupStore postOtpStore now email code
          providerStatus providerData).postOtpStore = postOtpStore) ∧
    (providerStatus = 200 → providerData.continuation_token = none →
      providerData.continuation_token_new = none →
      (signupVerifyOtp true signupStore postOtpStore now email code
          providerStatus providerData).response.status = 401 ∧
      (signupVerifyOtp true signupStore postOtpStore now email code
          providerStatus providerData).response.error = some "invalid_grant" ∧
      (signupVerifyOtp true signupStore postOtpStore now email code
          providerStatus providerData).postOtpStore = postOtpStore) ∧
    (providerData.continuation_token = some "" →
      providerData.continuation_token_new = none →
      (signupVerifyOtp true signupStore postOtpStore now email code
          providerStatus providerData).response.status = 401 ∧
      (signupVerifyOtp true signupStore postOtpStore now email code
          providerStatus providerData).response.error = some "invalid_grant" ∧
      (signupVerifyOtp true signupStore postOtpStore now email code
          providerStatus providerData).postOtpStore = postOtpStore) := by
  rcases hgs : getSignupContinuationToken signupStore now
      (toLowerStr (trimStr (email.getD ""))) with ⟨r1, s1⟩
  rw [hgs] at hct
  simp only at hct
  subst hct
  have hunf :
      signupVerifyOtp true signupStore postOtpStore now email code
          providerStatus providerData =
        (let newContinuationToken : Option String :=
          if providerStatus = 400 ∧ providerData.error = some "credential_required" ∧
              strFalsy providerData.continuation_token = false then
            providerData.continuation_token
          else if providerStatus = 200 then
            match providerData.continuation_token with
            | some t => some t
            | none => providerData.continuation_token_new
          else none
        if strFalsy newContinuationToken then
          ⟨{ status := 401, error := some "invalid_grant",
             error_description := some "Invalid verification code" },
           s1, postOtpStore⟩
        else
          ⟨{ status := 200, ok := some true },
           s1, storePostOtpContinuationToken postOtpStore now
                 (toLowerStr (trimStr (email.getD "")))
                 (newContinuationToken.getD "")⟩) := by
    simp only [signupVerifyOtp, hemail, hcode, Bool.false_eq_true, if_false]
    rw [if_neg (by simp), hgs]
  refine ⟨?_, ?_, ?_, ?_⟩
  · intro t ht hp400 herr htok
    have hcond1 : providerStatus = 400 ∧
        providerData.error = some "credential_required" ∧
        strFalsy providerData.continuation_token = false :=
      ⟨hp400, herr, by rw [htok]; simp [strFalsy, ht]⟩
    rw [hunf, if_pos hcond1, htok]
    simp [strFalsy, ht, storePostOtpContinuationToken, storeGet_set_self]
  · intro hne200 hnotcred
    rw [hunf, if_neg hnotcred, if_neg hne200]
    simp [strFalsy]
  · intro h200 htok htokn
    have hnc : ¬(providerStatus = 400 ∧
        providerData.error = some "credential_required" ∧
        strFalsy providerData.continuation_token = false) := by
      rintro ⟨-, -, hfalse⟩
      rw [htok] at hfalse
      simp [strFalsy] at hfalse
    rw [hunf, if_neg hnc, if_pos h200, htok, htokn]
    simp [strFalsy]
  · intro htok htokn
    have hnc : ¬(providerStatus = 400 ∧
        providerData.error = some "credential_required" ∧
        strFalsy providerData.continuation_token = false) := by
      rintro ⟨-, -, hfalse⟩
      rw [htok] at hfalse
      simp [strFalsy] at hfalse
    by_cases h200 : providerStatus = 200
    · rw [hunf, if_neg hnc, if_pos h200, htok]
      simp [strFalsy]
    · rw [hunf, if_neg hnc, if_neg h200]
      simp [strFalsy]

/-- C6 witness: with a stored start-stage token, a 400 `credential_required`
response carrying a non-empty token yields 200 and persists the post-OTP
token; a 400 with a different error yields 401 `invalid_grant` and persists
nothing; a 400 `credential_required` whose token is the falsy empty string
also yields 401 `invalid_grant` with nothing persisted. -/
theorem signupVerifyOtp_spec_witness :
    (signupVerifyOtp true [("a@b.com", ⟨"ct0", 0⟩)] [] 1000
        (some "a@b.com") (some "123456") 400
        { continuation_token := some "ct1", error := some "credential_required" }
        ).response.status = 200 ∧
    storeGet (signupVerifyOtp true [("a@b.com", ⟨"ct0", 0⟩)] [] 1000
        (some "a@b.com") (some "123456") 400
        { continuation_token := some "ct1", error := some "credential_required" }
        ).postOtpStore "a@b.com" = some ⟨"ct1", 1000⟩ ∧
    (signupVerifyOtp true [("a@b.com", ⟨"ct0", 0⟩)] [] 1000
        (some "a@b.com") (some "123456") 400
        { error := some "invalid_oob_value" }).response.status = 401 ∧
    (signupVerifyOtp true [("a@b.com", ⟨"ct0", 0⟩)] [] 1000
        (some "a@b.com") (some "123456") 400
        { error := some "invalid_oob_value" }).response.error = some "invalid_grant" ∧
    (signupVerifyOtp true [("a@b.com", ⟨"ct0", 0⟩)] [] 1000
        (some "a@b.com") (some "123456") 400
        { error := some "invalid_oob_value" }).postOtpStore = [] ∧
    (signupVerifyOtp true [("a@b.com", ⟨"ct0", 0⟩)] [] 1000
        (some "a@b.com") (some "123456") 400
        { continuation_token := some "", error := some "credential_required" }
        ).response.status = 401 ∧
    (signupVerifyOtp true [("a@b.com", ⟨"ct0", 0⟩)] [] 1000
        (some "a@b.com") (some "123456") 400
        { continuation_token := some "", error := some "credential_required" }
        ).response.error = some "invalid_grant" ∧
    (signupVerifyOtp true [("a@b.com", ⟨"ct0", 0⟩)] [] 1000
        (some "a@b.com") (some "123456") 400
        { continuation_token := some "", error := some "credential_required" }
        ).postOtpStore = [] := by
  have hok := signupVerifyOtp_spec [("a@b.com", ⟨"ct0", 0⟩)] [] 1000
    (some "a@b.com") (some "123456") "ct0" 400
    { continuation_token := some "ct1", error := some "credential_required" }
    (by decide) (by decide) (by decide)
  have hbad := signupVerifyOtp_spec [("a@b.com", ⟨"ct0", 0⟩)] [] 1000
    (some "a@b.com") (some "123456") "ct0" 400
    { error := some "invalid_oob_value" }
    (by decide) (by decide) (by decide)
  have hempty := signupVerifyOtp_spec [("a@b.com", ⟨"ct0", 0⟩)] [] 1000
    (some "a@b.com") (some "123456") "ct0" 400
    { continuation_token := some "", error := some "credential_required" }
    (by decide) (by decide) (by decide)
  have h1 := hok.1 "ct1" (by decide) rfl rfl rfl
  have h2 := hbad.2.1 (by decide) (by rintro ⟨-, hcontra, -⟩; exact absurd hcontra (by decide))
  have h3 := hempty.2.2.2 rfl rfl
  exact ⟨h1.1, h1.2, h2.1, h2.2.1, h2.2.2, h3.1, h3.2.1, h3.2.2⟩

end CentralSSO
